import Mathlib

/-!
Shallow embedding of `stock_market/performance_calculation.py`
(class `PerformanceCalculator`) and verification of the claims about it.

Python floats are modelled by `ℚ`; Python integer arguments by `ℤ`;
dictionaries by association lists; pandas DataFrames by association lists
from column name to column values.  Python's raised exceptions are modelled
by `Except PyErr`.  Python's float square root (`** 0.5`) is modelled by an
explicit function parameter `sqrtFn : ℚ → ℚ`.
-/

/-- The Python exceptions the embedded code can raise. -/
inductive PyErr where
  | zeroDivision
  | indexError
  | keyError
  | nameError
  deriving DecidableEq, Repr

/-- Python slice `xs[:p]` for an arbitrary integer `p`:
nonnegative `p` keeps the first `p` elements (clipped at the length);
negative `p` keeps the first `len + p` elements (clipped at 0). -/
def pyTake (xs : List ℚ) (p : ℤ) : List ℚ :=
  if 0 ≤ p then xs.take p.toNat else xs.take (xs.length - (-p).toNat)

/-- Python slice `xs[p:]` for an arbitrary integer `p`:
nonnegative `p` drops the first `p` elements; negative `p` drops the
first `len + p` elements (clipped at 0). -/
def pyDrop (xs : List ℚ) (p : ℤ) : List ℚ :=
  if 0 ≤ p then xs.drop p.toNat else xs.drop (xs.length - (-p).toNat)

/-- Embedding of `PerformanceCalculator.calculate_mas(self, prices, period)`.

Source (lines 12-28):
```
simple_ma = sum(self.prices[:period])/period
multiplier = 2 / (period + 1)
exponential_ma = [simple_ma*(multiplier)]
for price in self.prices[:period]:
    exponential_ma.append((price - exponential_ma[-1]) * multiplier + exponential_ma[-1])
return simple_ma, exponential_ma
```
The body reads `self.prices`, never the `prices` parameter.
`self_prices` is the instance-held series.  Python raises
`ZeroDivisionError` on `sum(...)/period` when `period = 0` and on
`2/(period+1)` when `period = -1`; the appending loop is a fold that
carries the list built so far together with its last element. -/
def calculate_mas (self_prices : List ℚ) (prices : List ℚ) (period : ℤ) :
    Except PyErr (ℚ × List ℚ) :=
  if period = 0 then .error .zeroDivision else
  let simple_ma := (pyTake self_prices period).sum / (period : ℚ)
  if period + 1 = 0 then .error .zeroDivision else
  let multiplier := 2 / ((period : ℚ) + 1)
  let ema :=
    ((pyTake self_prices period).foldl
      (fun acc price =>
        (acc.1 ++ [(price - acc.2) * multiplier + acc.2],
         (price - acc.2) * multiplier + acc.2))
      ([simple_ma * multiplier], simple_ma * multiplier)).1
  .ok (simple_ma, ema)

/-- Embedding of `PerformanceCalculator.calculate_rsi(self, prices, period=14)`.

Source (lines 29-45): the deltas index `self.prices` but the range bound is
`len(prices)` (the parameter), so Python raises `IndexError` when the
parameter is longer than the held series (and at least 2 long); dividing by
`len(gains)` raises `ZeroDivisionError` when there are no deltas, and
`average_gain/average_losses` raises it when the average loss is zero.
The `period` parameter is never used by the body. -/
def calculate_rsi (self_prices : List ℚ) (prices : List ℚ) : Except PyErr ℚ :=
  if 2 ≤ prices.length ∧ self_prices.length < prices.length then .error .indexError else
  let deltas := (List.range' 1 (prices.length - 1)).map
    (fun i => self_prices.getD i 0 - self_prices.getD (i - 1) 0)
  let gains := deltas.map (fun delta => if 0 < delta then delta else 0)
  let losses := deltas.map (fun delta => if delta < 0 then -delta else 0)
  if gains.length = 0 then .error .zeroDivision else
  let average_gain := gains.sum / (gains.length : ℚ)
  if losses.length = 0 then .error .zeroDivision else
  let average_losses := losses.sum / (losses.length : ℚ)
  if average_losses = 0 then .error .zeroDivision else
  let rs := average_gain / average_losses
  if 1 + rs = 0 then .error .zeroDivision else
  .ok (100 - 100 / (1 + rs))

/-- Embedding of `PerformanceCalculator.calculate_bollinger_bands`.

Source (lines 47-64): `sma` is the first output of `calculate_mas`
(which reads the held series); the standard deviation is taken over the
trailing `period` elements of the `prices` parameter (`prices[-period:]`);
`** 0.5` is modelled by `sqrtFn`.  The `assert isinstance(std_dev, float)`
always holds in Python and is a no-op here. -/
def calculate_bollinger_bands (self_prices : List ℚ) (prices : List ℚ)
    (sqrtFn : ℚ → ℚ) (period : ℤ) (num_std_dev : ℚ) :
    Except PyErr (ℚ × ℚ × ℚ) :=
  match calculate_mas self_prices prices period with
  | .error e => .error e
  | .ok mas =>
    let sma := mas.1
    let std_dev := sqrtFn
      (((pyDrop prices (-period)).map (fun price => (price - sma) ^ 2)).sum / (period : ℚ))
    let upper_band := sma + num_std_dev * std_dev
    let lower_band := sma - num_std_dev * std_dev
    .ok (upper_band, lower_band, sma)

/-- Embedding of `PerformanceCalculator.calculate_stop_loss` (line 75). -/
def calculate_stop_loss (entry_price stop_loss_percentage : ℚ) : ℚ :=
  (1 - stop_loss_percentage) * entry_price

/-- Embedding of `PerformanceCalculator.calculate_take_profit` (line 85). -/
def calculate_take_profit (entry_price take_profit_percentage : ℚ) : ℚ :=
  (1 + take_profit_percentage) * entry_price

/-- Embedding of `PerformanceCalculator.calculate_position_size` (line 97);
Python raises `ZeroDivisionError` when the stop-loss amount is zero. -/
def calculate_position_size (account_balance risk_per_trade stop_loss_amount : ℚ) :
    Except PyErr ℚ :=
  if stop_loss_amount = 0 then .error .zeroDivision
  else .ok (account_balance * risk_per_trade / stop_loss_amount)

/-- Embedding of `PerformanceCalculator.moving_average_crossover`
(lines 99-113): both calls pass `self.prices` as the `prices` argument. -/
def moving_average_crossover (self_prices : List ℚ) (prices : List ℚ)
    (short_period long_period : ℤ) : Except PyErr String := do
  let short_ma := (← calculate_mas self_prices self_prices short_period).1
  let long_ma := (← calculate_mas self_prices self_prices long_period).1
  if long_ma < short_ma then .ok "Buy"
  else if short_ma < long_ma then .ok "Sell"
  else .ok "Hold"

/-- Embedding of `PerformanceCalculator.calculate_allocation_ratios` (line 124). -/
def calculate_allocation_ratios (total_capital : ℚ) (allocations : List (String × ℚ)) :
    List (String × ℚ) :=
  allocations.map (fun a => (a.1, total_capital * a.2))

/-- Embedding of `PerformanceCalculator.rebalance_portfolio` (lines 135-136). -/
def rebalance_portfolio (portfolio : List (String × ℚ)) (target_ratios : List (String × ℚ)) :
    List (String × ℚ) :=
  let total_value := (portfolio.map Prod.snd).sum
  target_ratios.map (fun a => (a.1, total_value * a.2))

/-- One iteration of the `calculate_max_drawdown` loop body (lines 148-153),
in the state `(peak, max_drawdown)`, assuming the division succeeds. -/
def ddStep (acc : ℚ × ℚ) (value : ℚ) : ℚ × ℚ :=
  let peak := if acc.1 < value then value else acc.1
  let drawdown := (peak - value) / peak
  (peak, if acc.2 < drawdown then drawdown else acc.2)

/-- One iteration of the `calculate_max_drawdown` loop body with the
division-by-zero check Python performs on `(peak - value) / peak`. -/
def ddStepM (acc : ℚ × ℚ) (value : ℚ) : Except PyErr (ℚ × ℚ) :=
  let peak := if acc.1 < value then value else acc.1
  if peak = 0 then .error .zeroDivision
  else
    let drawdown := (peak - value) / peak
    .ok (peak, if acc.2 < drawdown then drawdown else acc.2)

/-- Embedding of `PerformanceCalculator.calculate_max_drawdown` (lines 138-154):
`portfolio_values[0]` raises `IndexError` on the empty list, the running
state is `(peak, max_drawdown)` starting at `(portfolio_values[0], 0)`, and
the loop runs over the whole list. -/
def calculate_max_drawdown (portfolio_values : List ℚ) : Except PyErr ℚ :=
  match portfolio_values with
  | [] => .error .indexError
  | v0 :: _ => (portfolio_values.foldlM ddStepM (v0, 0)).map Prod.snd

/-- Embedding of `PerformanceCalculator.calculate_risk_reward_ratio` (line 165). -/
def calculate_risk_reward_ratio (potential_profit potential_loss : ℚ) : Except PyErr ℚ :=
  if potential_profit = 0 then .error .zeroDivision
  else .ok (potential_loss / potential_profit)

/-- Embedding of `PerformanceCalculator.calculate_volatility` (lines 167-177):
the `period` parameter is unused; the result is the (undivided) sum of
squared deviations of the returns from their mean.  Dividing by a zero
price or taking the mean of an empty returns list raises
`ZeroDivisionError`. -/
def calculate_volatility (prices : List ℚ) (period : ℤ) : Except PyErr ℚ := do
  let _ := period
  let returns ← (List.range' 1 (prices.length - 1)).mapM
    (fun i =>
      if prices.getD (i - 1) 0 = 0 then Except.error PyErr.zeroDivision
      else Except.ok (prices.getD i 0 / prices.getD (i - 1) 0 - 1))
  if returns.length = 0 then .error .zeroDivision else
  .ok ((returns.map (fun r => (r - returns.sum / (returns.length : ℚ)) ^ 2)).sum)

/-- Embedding of `PerformanceCalculator.calculate_lookback_period` (line 187):
returns `prices[-period:]`. -/
def calculate_lookback_period (prices : List ℚ) (period : ℤ) : List ℚ :=
  pyDrop prices (-period)

/-- Embedding of `PerformanceCalculator.calculate_carbon_footprint` (line 198). -/
def calculate_carbon_footprint (activity_data emission_factor : ℚ) : ℚ :=
  activity_data * emission_factor

/-- A pandas DataFrame built from a dict of equal-length lists, modelled as
an association list from column name to column values. -/
abbrev DataFrameQ := List (String × List ℚ)

/-- Column lookup `df[name]`; `none` models a pandas `KeyError`. -/
def dfLookup (df : DataFrameQ) (name : String) : Option (List ℚ) :=
  (df.find? (fun c => c.1 = name)).map Prod.snd

/-- Number of rows of the frame (columns are equal length; the first
column's length is used). -/
def dfNumRows (df : DataFrameQ) : ℕ :=
  match df with
  | [] => 0
  | c :: _ => c.2.length

/-- `df.sum(axis=1)`: the row-wise sums across all columns. -/
def dfRowSums (df : DataFrameQ) : List ℚ :=
  (List.range (dfNumRows df)).map (fun i => (df.map (fun c => c.2.getD i 0)).sum)

/-- Column assignment `df[name] = vals`: replaces the column when present,
otherwise appends it on the right. -/
def dfSetCol (df : DataFrameQ) (name : String) (vals : List ℚ) : DataFrameQ :=
  if (df.find? (fun c => c.1 = name)).isSome then
    df.map (fun c => if c.1 = name then (name, vals) else c)
  else df ++ [(name, vals)]

/-- `df.loc['Annual Total'] = df.sum()`: appends to every column the sum of
that column (the column-wise totals row). -/
def dfAppendColSums (df : DataFrameQ) : DataFrameQ :=
  df.map (fun c => (c.1, c.2 ++ [c.2.sum]))

/-- `df.at['Annual Total', name] = x`: overwrites the last cell of the
named column. -/
def dfSetLastCell (df : DataFrameQ) (name : String) (x : ℚ) : DataFrameQ :=
  df.map (fun c => if c.1 = name then (c.1, c.2.dropLast ++ [x]) else c)

/-- Embedding of `PerformanceCalculator.calculate_energy_consumption`
(lines 200-219).  Line 210 of the source creates the derived column under
the misspelled name `'Total Energy Consumption (kWh'` (missing the closing
parenthesis) and line 213 reads `'Total Energy Consumption (kWh)'`, which
pandas answers with a `KeyError` unless the caller's data already had a
column of that exact name. -/
def calculate_energy_consumption (energy_data : DataFrameQ) : Except PyErr DataFrameQ :=
  let df := dfSetCol energy_data "Total Energy Consumption (kWh" (dfRowSums energy_data)
  match dfLookup df "Total Energy Consumption (kWh)" with
  | none => .error .keyError
  | some col =>
    let annual_total_consumption := col.sum
    let df := dfAppendColSums df
    let df := dfSetLastCell df "Total Energy Consumption (kWh)" annual_total_consumption
    .ok df

/-- Embedding of `PerformanceCalculator.calculate_water_usage`
(lines 221-240).  Line 231 of the source reads the name `df`, which is not
defined anywhere in that function's scope (the frame is called
`water_usage_df`), so Python raises `NameError` before anything else
happens. -/
def calculate_water_usage (water_usage_data : DataFrameQ) : Except PyErr DataFrameQ :=
  let _water_usage_df := water_usage_data
  .error .nameError

/-- The instance state of a `PerformanceCalculator` object. -/
structure PerformanceCalculator where
  performance_calculations : List (String × ℚ)
  prices : List ℚ
  deriving DecidableEq, Repr

/-- Embedding of `PerformanceCalculator.__init__` (lines 8-10): the
constructor parameter is ignored; the state is always the empty dict and
the empty price list. -/
def PerformanceCalculator.init (performance_calculations : List (String × ℚ)) :
    PerformanceCalculator :=
  let _ := performance_calculations
  { performance_calculations := [], prices := [] }

/-! ### State-passing forms of the methods

The Python methods run on an instance.  None of the method bodies assigns
to `self.prices` or `self.performance_calculations`, so each state-passing
form returns the result of the corresponding pure embedding together with
the untouched instance state. -/

/-- Method form of `calculate_mas`. -/
def PerformanceCalculator.calculate_mas_m (self : PerformanceCalculator)
    (prices : List ℚ) (period : ℤ) :
    Except PyErr (ℚ × List ℚ) × PerformanceCalculator :=
  (calculate_mas self.prices prices period, self)

/-- Method form of `calculate_rsi`. -/
def PerformanceCalculator.calculate_rsi_m (self : PerformanceCalculator)
    (prices : List ℚ) : Except PyErr ℚ × PerformanceCalculator :=
  (calculate_rsi self.prices prices, self)

/-- Method form of `calculate_bollinger_bands`. -/
def PerformanceCalculator.calculate_bollinger_bands_m (self : PerformanceCalculator)
    (prices : List ℚ) (sqrtFn : ℚ → ℚ) (period : ℤ) (num_std_dev : ℚ) :
    Except PyErr (ℚ × ℚ × ℚ) × PerformanceCalculator :=
  (calculate_bollinger_bands self.prices prices sqrtFn period num_std_dev, self)

/-- Method form of `calculate_stop_loss`. -/
def PerformanceCalculator.calculate_stop_loss_m (self : PerformanceCalculator)
    (entry_price stop_loss_percentage : ℚ) : ℚ × PerformanceCalculator :=
  (calculate_stop_loss entry_price stop_loss_percentage, self)

/-- Method form of `calculate_take_profit`. -/
def PerformanceCalculator.calculate_take_profit_m (self : PerformanceCalculator)
    (entry_price take_profit_percentage : ℚ) : ℚ × PerformanceCalculator :=
  (calculate_take_profit entry_price take_profit_percentage, self)

/-- Method form of `calculate_position_size`. -/
def PerformanceCalculator.calculate_position_size_m (self : PerformanceCalculator)
    (account_balance risk_per_trade stop_loss_amount : ℚ) :
    Except PyErr ℚ × PerformanceCalculator :=
  (calculate_position_size account_balance risk_per_trade stop_loss_amount, self)

/-- Method form of `moving_average_crossover`. -/
def PerformanceCalculator.moving_average_crossover_m (self : PerformanceCalculator)
    (prices : List ℚ) (short_period long_period : ℤ) :
    Except PyErr String × PerformanceCalculator :=
  (moving_average_crossover self.prices prices short_period long_period, self)

/-- Method form of `calculate_allocation_ratios`. -/
def PerformanceCalculator.calculate_allocation_ratios_m (self : PerformanceCalculator)
    (total_capital : ℚ) (allocations : List (String × ℚ)) :
    List (String × ℚ) × PerformanceCalculator :=
  (calculate_allocation_ratios total_capital allocations, self)

/-- Method form of `rebalance_portfolio`. -/
def PerformanceCalculator.rebalance_portfolio_m (self : PerformanceCalculator)
    (portfolio target_ratios : List (String × ℚ)) :
    List (String × ℚ) × PerformanceCalculator :=
  (rebalance_portfolio portfolio target_ratios, self)

/-- Method form of `calculate_max_drawdown`. -/
def PerformanceCalculator.calculate_max_drawdown_m (self : PerformanceCalculator)
    (portfolio_values : List ℚ) : Except PyErr ℚ × PerformanceCalculator :=
  (calculate_max_drawdown portfolio_values, self)

/-- Method form of `calculate_risk_reward_ratio`. -/
def PerformanceCalculator.calculate_risk_reward_ratio_m (self : PerformanceCalculator)
    (potential_profit potential_loss : ℚ) : Except PyErr ℚ × PerformanceCalculator :=
  (calculate_risk_reward_ratio potential_profit potential_loss, self)

/-- Method form of `calculate_volatility`. -/
def PerformanceCalculator.calculate_volatility_m (self : PerformanceCalculator)
    (prices : List ℚ) (period : ℤ) : Except PyErr ℚ × PerformanceCalculator :=
  (calculate_volatility prices period, self)

/-- Method form of `calculate_lookback_period`. -/
def PerformanceCalculator.calculate_lookback_period_m (self : PerformanceCalculator)
    (prices : List ℚ) (period : ℤ) : List ℚ × PerformanceCalculator :=
  (calculate_lookback_period prices period, self)

/-- Method form of `calculate_carbon_footprint`. -/
def PerformanceCalculator.calculate_carbon_footprint_m (self : PerformanceCalculator)
    (activity_data emission_factor : ℚ) : ℚ × PerformanceCalculator :=
  (calculate_carbon_footprint activity_data emission_factor, self)

/-- Method form of `calculate_energy_consumption`. -/
def PerformanceCalculator.calculate_energy_consumption_m (self : PerformanceCalculator)
    (energy_data : DataFrameQ) : Except PyErr DataFrameQ × PerformanceCalculator :=
  (calculate_energy_consumption energy_data, self)

/-- Method form of `calculate_water_usage`. -/
def PerformanceCalculator.calculate_water_usage_m (self : PerformanceCalculator)
    (water_usage_data : DataFrameQ) : Except PyErr DataFrameQ × PerformanceCalculator :=
  (calculate_water_usage water_usage_data, self)

/-- Decidable equality for `Except`, so that concrete runs of the embedded
functions can be checked by `decide`. -/
instance {ε α : Type} [DecidableEq ε] [DecidableEq α] : DecidableEq (Except ε α)
  | .error a, .error b => decidable_of_iff (a = b) (by simp)
  | .error _, .ok _ => isFalse (by simp)
  | .ok _, .error _ => isFalse (by simp)
  | .ok a, .ok b => decidable_of_iff (a = b) (by simp)

/-! ### Claims -/

/-- Claim C2: the result of `calculate_mas` is independent of its `prices`
parameter — for every instance-held series, every period at least 1 and any
two argument lists, the returned (simple average, exponential series) pair
is exactly the same, because the body reads only `self.prices` and
`period`. -/
theorem calculate_mas_ignores_prices_argument (self_prices xs ys : List ℚ)
    (period : ℤ) (h : 1 ≤ period) :
    calculate_mas self_prices xs period = calculate_mas self_prices ys period := by
  exact rfl

/-- Witness for C2 at a concrete instantiation. -/
theorem calculate_mas_ignores_prices_argument_witness :
    calculate_mas [(1 : ℚ), 2] [5] 1 = calculate_mas [(1 : ℚ), 2] [7, 8, 9] 1 :=
  calculate_mas_ignores_prices_argument [1, 2] [5] [7, 8, 9] 1 (by decide)

/-- Claim C9: a freshly constructed `PerformanceCalculator` ignores its
constructor argument and holds an empty price series, so `calculate_mas`
on a fresh instance returns simple average `0` and exponential series
`[0]` for every `prices` argument and every period at least 1, without
any error. -/
theorem fresh_instance_calculate_mas (pc_arg : List (String × ℚ))
    (prices : List ℚ) (period : ℤ) (h : 1 ≤ period) :
    (PerformanceCalculator.init pc_arg).prices = [] ∧
    (PerformanceCalculator.init pc_arg).performance_calculations = [] ∧
    calculate_mas (PerformanceCalculator.init pc_arg).prices prices period =
      Except.ok (0, [0]) := by
  refine ⟨rfl, rfl, ?_⟩
  have h0 : ¬ period = 0 := by omega
  have h1 : ¬ period + 1 = 0 := by omega
  simp [calculate_mas, pyTake, PerformanceCalculator.init, h0, h1]

/-- Witness for C9 at a concrete instantiation. -/
theorem fresh_instance_calculate_mas_witness :
    (PerformanceCalculator.init [("alpha", 1)]).prices = [] ∧
    (PerformanceCalculator.init [("alpha", 1)]).performance_calculations = [] ∧
    calculate_mas (PerformanceCalculator.init [("alpha", 1)]).prices [3, 4, 5] 2 =
      Except.ok (0, [0]) :=
  fresh_instance_calculate_mas [("alpha", 1)] [3, 4, 5] 2 (by decide)

/-- Counterexample to claim C3 as stated: with held series `[1]` (length 1)
and period `2`, the length of the series is less than the period, yet
`calculate_mas` raises nothing and returns the numeric pair
`(1/2, [1/3, 7/9])` computed over the truncated window — it does not fail
with a typed InvalidArgument error. -/
theorem calculate_mas_short_series_counterexample :
    calculate_mas [(1 : ℚ)] [] 2 = Except.ok (1/2, [1/3, 7/9]) := by
  have ht : pyTake [(1 : ℚ)] 2 = [1] := rfl
  simp only [calculate_mas, ht]
  norm_num

/-- Claim C3 (amended): `calculate_mas` never raises a typed
InvalidArgument error.  It raises a raw `ZeroDivisionError` exactly when
`period = 0` (from `sum(...)/period`) or `period = -1` (from
`2/(period+1)`); for every other period — including every `period ≥ 1`
with a series shorter than `period`, and every `period ≤ -2` — it returns
a numeric result computed over the truncated slice `self.prices[:period]`. -/
theorem calculate_mas_error_behavior (s prices : List ℚ) (p : ℤ) :
    (calculate_mas s prices p = Except.error PyErr.zeroDivision ↔ (p = 0 ∨ p = -1)) ∧
    (p ≠ 0 → p ≠ -1 → ∃ sma ema, calculate_mas s prices p = Except.ok (sma, ema)) := by
  unfold calculate_mas
  by_cases h0 : p = 0
  · simp [h0]
  · by_cases h1 : p + 1 = 0
    · have h2 : p = -1 := by omega
      simp [h0, h1, h2]
    · have h2 : ¬ p = -1 := by omega
      simp [h0, h1, h2]

/-- Witness for C3's amended theorem at concrete instantiations. -/
theorem calculate_mas_error_behavior_witness :
    ∃ sma ema, calculate_mas [(1 : ℚ)] [] 2 = Except.ok (sma, ema) :=
  (calculate_mas_error_behavior [1] [] 2).2 (by decide) (by decide)

/-- Claim C7 (code bug): on an ordinary 2-category, 2-period ledger,
`calculate_energy_consumption` raises `KeyError` instead of returning the
report — line 210 creates the derived column under the misspelled name
`'Total Energy Consumption (kWh'` and line 213 immediately reads
`'Total Energy Consumption (kWh)'`, which the frame does not contain. -/
theorem calculate_energy_consumption_keyerror :
    calculate_energy_consumption [("Electricity", [10, 20]), ("Gas", [5, 5])] =
      Except.error PyErr.keyError := by
  exact rfl

/-- Claim C8 (code bug): `calculate_water_usage` never produces a report at
all — line 231 reads the undefined name `df`, so Python raises `NameError`
on every input — hence it is not structurally identical to
`calculate_energy_consumption` (which on the same ledger fails later, with
`KeyError`). -/
theorem calculate_water_usage_nameerror :
    calculate_water_usage [("Mains Water", [10, 20]), ("Rainwater", [5, 5])] =
        Except.error PyErr.nameError ∧
    calculate_energy_consumption [("Mains Water", [10, 20]), ("Rainwater", [5, 5])] =
        Except.error PyErr.keyError := by
  exact ⟨rfl, rfl⟩

/-- Claim C10: every operation of `PerformanceCalculator` leaves the
instance state unchanged — no method body assigns to `self.prices` or
`self.performance_calculations`, so for every method and all arguments the
state after the call equals the state before it. -/
theorem methods_leave_state_unchanged (self : PerformanceCalculator)
    (prices portfolio_values : List ℚ)
    (period short_period long_period : ℤ) (sqrtFn : ℚ → ℚ)
    (num_std_dev entry_price pct account_balance risk_per_trade
      stop_loss_amount potential_profit potential_loss total_capital
      activity_data emission_factor : ℚ)
    (allocations portfolio target_ratios : List (String × ℚ))
    (energy_data water_usage_data : DataFrameQ) :
    (self.calculate_mas_m prices period).2 = self ∧
    (self.calculate_rsi_m prices).2 = self ∧
    (self.calculate_bollinger_bands_m prices sqrtFn period num_std_dev).2 = self ∧
    (self.calculate_stop_loss_m entry_price pct).2 = self ∧
    (self.calculate_take_profit_m entry_price pct).2 = self ∧
    (self.calculate_position_size_m account_balance risk_per_trade stop_loss_amount).2 = self ∧
    (self.moving_average_crossover_m prices short_period long_period).2 = self ∧
    (self.calculate_allocation_ratios_m total_capital allocations).2 = self ∧
    (self.rebalance_portfolio_m portfolio target_ratios).2 = self ∧
    (self.calculate_max_drawdown_m portfolio_values).2 = self ∧
    (self.calculate_risk_reward_ratio_m potential_profit potential_loss).2 = self ∧
    (self.calculate_volatility_m prices period).2 = self ∧
    (self.calculate_lookback_period_m prices period).2 = self ∧
    (self.calculate_carbon_footprint_m activity_data emission_factor).2 = self ∧
    (self.calculate_energy_consumption_m energy_data).2 = self ∧
    (self.calculate_water_usage_m water_usage_data).2 = self :=
  ⟨rfl, rfl, rfl, rfl, rfl, rfl, rfl, rfl, rfl, rfl, rfl, rfl, rfl, rfl, rfl, rfl⟩

/-- The appending loop of `calculate_mas`, folded from any partial list, is
a `scanl`: the accumulator's first component collects every intermediate
value of the recurrence. -/
theorem foldl_ema_eq_scanl (f : ℚ → ℚ → ℚ) :
    ∀ (xs : List ℚ) (l : List ℚ) (a : ℚ),
      (xs.foldl (fun acc price => (acc.1 ++ [f acc.2 price], f acc.2 price)) (l ++ [a], a)).1
        = l ++ List.scanl f a xs
  | [], l, a => by simp
  | x :: xs, l, a => by
    simp only [List.foldl_cons, List.scanl_cons]
    have h := foldl_ema_eq_scanl f xs (l ++ [a]) (f a x)
    simpa [List.append_assoc] using h

/-- Special case of `foldl_ema_eq_scanl` starting from the singleton seed,
exactly the shape of the loop in `calculate_mas`. -/
theorem foldl_ema_eq_scanl_nil (f : ℚ → ℚ → ℚ) (xs : List ℚ) (a : ℚ) :
    (xs.foldl (fun acc price => (acc.1 ++ [f acc.2 price], f acc.2 price)) ([a], a)).1
      = List.scanl f a xs := by
  have h := foldl_ema_eq_scanl f xs [] a
  simpa using h

/-- Claim C1: for a held series `s` and a period with `1 ≤ period ≤ |s|`,
`calculate_mas` returns the arithmetic mean of the first `period` elements
of `s` (a leading window of exactly `period` elements), together with the
exponential series that starts at `simpleAverage * multiplier` with
`multiplier = 2/(period+1)` and applies
`next = (price - prev) * multiplier + prev` once per price of the leading
window, appending each step — hence the series has length `period + 1`. -/
theorem calculate_mas_leading_window (s prices : List ℚ) (p : ℤ)
    (h1 : 1 ≤ p) (h2 : p ≤ (s.length : ℤ)) :
    (s.take p.toNat).length = p.toNat ∧
    calculate_mas s prices p =
      Except.ok ((s.take p.toNat).sum / (p : ℚ),
        List.scanl (fun prev price => (price - prev) * (2 / ((p : ℚ) + 1)) + prev)
          ((s.take p.toNat).sum / (p : ℚ) * (2 / ((p : ℚ) + 1))) (s.take p.toNat)) ∧
    (List.scanl (fun prev price => (price - prev) * (2 / ((p : ℚ) + 1)) + prev)
        ((s.take p.toNat).sum / (p : ℚ) * (2 / ((p : ℚ) + 1))) (s.take p.toNat)).length
      = p.toNat + 1 := by
  have hlen : p.toNat ≤ s.length := by omega
  refine ⟨by simp [List.length_take]; omega, ?_,
    by simp [List.length_scanl, List.length_take]; omega⟩
  have h0 : ¬ p = 0 := by omega
  have hp1 : ¬ p + 1 = 0 := by omega
  have hTake : pyTake s p = s.take p.toNat := by
    unfold pyTake
    rw [if_pos (by omega : (0 : ℤ) ≤ p)]
  simp only [calculate_mas, h0, hp1, if_false, hTake]
  exact congrArg (fun l => Except.ok ((s.take p.toNat).sum / (p : ℚ), l))
    (foldl_ema_eq_scanl_nil
      (fun prev price => (price - prev) * (2 / ((p : ℚ) + 1)) + prev) (s.take p.toNat) _)

/-- Witness for C1 at the held series `[1, 2, 3]` with period 2. -/
theorem calculate_mas_leading_window_witness :
    calculate_mas [(1 : ℚ), 2, 3] [] 2 = Except.ok (3/2, [1, 1, 5/3]) := by
  have h := (calculate_mas_leading_window [(1 : ℚ), 2, 3] [] 2 (by decide) (by decide)).2.1
  rw [h]
  have ht : List.take (2 : ℤ).toNat [(1 : ℚ), 2, 3] = [1, 2] := rfl
  rw [ht]
  norm_num [List.scanl]

/-- Helper: whenever `calculate_mas` does not raise (the period is neither
0 nor -1), its result is the mean of the slice and the `scanl` of the
exponential recurrence over that slice. -/
theorem calculate_mas_ok (s prices : List ℚ) (p : ℤ)
    (h0 : ¬ p = 0) (h1 : ¬ p + 1 = 0) :
    calculate_mas s prices p =
      Except.ok ((pyTake s p).sum / (p : ℚ),
        List.scanl (fun prev price => (price - prev) * (2 / ((p : ℚ) + 1)) + prev)
          ((pyTake s p).sum / (p : ℚ) * (2 / ((p : ℚ) + 1))) (pyTake s p)) := by
  simp only [calculate_mas, h0, h1, if_false]
  exact congrArg (fun l => Except.ok ((pyTake s p).sum / (p : ℚ), l))
    (foldl_ema_eq_scanl_nil
      (fun prev price => (price - prev) * (2 / ((p : ℚ) + 1)) + prev) (pyTake s p) _)

/-- Claim C6: on a held and passed series of 20 identical values `v`, with
period 20 and 2 standard deviations, the trailing-window standard deviation
is 0, so `calculate_bollinger_bands` returns upper band = lower band =
simple average, all equal to `v`, the first output of `calculate_mas`.
The only property needed of the square-root primitive is `sqrtFn 0 = 0`,
which holds of Python's `** 0.5`. -/
theorem bollinger_bands_identical_values (v : ℚ) (sqrtFn : ℚ → ℚ) (h : sqrtFn 0 = 0) :
    (calculate_mas (List.replicate 20 v) (List.replicate 20 v) 20).map Prod.fst =
      Except.ok v ∧
    calculate_bollinger_bands (List.replicate 20 v) (List.replicate 20 v) sqrtFn 20 2 =
      Except.ok (v, v, v) := by
  have hTake : pyTake (List.replicate 20 v) 20 = List.replicate 20 v := rfl
  have hsum : (List.replicate 20 v).sum = 20 * v := by
    rw [List.sum_replicate, nsmul_eq_mul]; norm_num
  have hv : (20 : ℚ) * v / 20 = v := by field_simp
  have hmas := calculate_mas_ok (List.replicate 20 v) (List.replicate 20 v) 20
    (by norm_num) (by norm_num)
  have hc : ((20 : ℤ) : ℚ) = 20 := by norm_num
  rw [hTake, hsum, hc, hv] at hmas
  have hdrop : pyDrop (List.replicate 20 v) (-20) = List.replicate 20 v := rfl
  constructor
  · rw [hmas]; rfl
  · simp only [calculate_bollinger_bands, hmas, hdrop, List.map_replicate]
    simp [h, sub_self]

/-- Witness for C6 with `v = 3` and the identity as the square root
primitive (`id 0 = 0`). -/
theorem bollinger_bands_identical_values_witness :
    calculate_bollinger_bands (List.replicate 20 (3 : ℚ)) (List.replicate 20 3) id 20 2 =
      Except.ok (3, 3, 3) :=
  (bollinger_bands_identical_values 3 id rfl).2

/-- The per-step deltas of a series, over the full series: element `i` is
`l[i+1] - l[i]`. -/
def rsiDeltas (l : List ℚ) : List ℚ :=
  List.zipWith (fun a b => a - b) (l.drop 1) l

/-- Average gain of the RSI computation: upward deltas, averaged over all
deltas (not over a trailing period). -/
def rsiAvgGain (l : List ℚ) : ℚ :=
  ((rsiDeltas l).map (fun delta => if 0 < delta then delta else 0)).sum /
    ((rsiDeltas l).length : ℚ)

/-- Average loss of the RSI computation: downward deltas negated, averaged
over all deltas (not over a trailing period). -/
def rsiAvgLoss (l : List ℚ) : ℚ :=
  ((rsiDeltas l).map (fun delta => if delta < 0 then -delta else 0)).sum /
    ((rsiDeltas l).length : ℚ)

/-- The index-based delta comprehension of the source equals the
`zipWith` form of the per-step deltas, when the held and the passed series
are the same list. -/
theorem deltas_eq_zipWith (l : List ℚ) :
    (List.range' 1 (l.length - 1)).map (fun i => l.getD i 0 - l.getD (i - 1) 0)
      = rsiDeltas l := by
  unfold rsiDeltas
  apply List.ext_getElem
  · simp only [List.length_map, List.length_range', List.length_zipWith,
      List.length_drop]
    omega
  · intro i h1 h2
    have hi : i < l.length - 1 := by
      simpa [List.length_range'] using h1
    simp only [List.getElem_map, List.getElem_range'_1, List.getElem_zipWith,
      List.getElem_drop]
    have e1 : 1 + i - 1 = i := by omega
    rw [e1, List.getD_eq_getElem l 0 (by omega), List.getD_eq_getElem l 0 (by omega)]

/-- Claim C5: on a series of at least two elements held and passed
consistently, `calculate_rsi` forms the per-step deltas over the full
series and averages gains and losses over all deltas; when the average
loss is nonzero it returns `100 - 100/(1 + avgGain/avgLoss)`, a value in
`[0, 100]`; when the average loss is zero it raises `ZeroDivisionError`. -/
theorem calculate_rsi_full_series (l : List ℚ) (hlen : 2 ≤ l.length) :
    (rsiAvgLoss l ≠ 0 →
      calculate_rsi l l = Except.ok (100 - 100 / (1 + rsiAvgGain l / rsiAvgLoss l)) ∧
      0 ≤ 100 - 100 / (1 + rsiAvgGain l / rsiAvgLoss l) ∧
      100 - 100 / (1 + rsiAvgGain l / rsiAvgLoss l) ≤ 100) ∧
    (rsiAvgLoss l = 0 → calculate_rsi l l = Except.error PyErr.zeroDivision) := by
  have hguard : ¬ (2 ≤ l.length ∧ l.length < l.length) := by omega
  have hdlen : (rsiDeltas l).length = l.length - 1 := by
    simp only [rsiDeltas, List.length_zipWith, List.length_drop]
    omega
  have hdnez : ¬ ((rsiDeltas l).length = 0) := by
    rw [hdlen]
    omega
  have hg0 : 0 ≤ rsiAvgGain l := by
    apply div_nonneg
    · apply List.sum_nonneg
      intro x hx
      obtain ⟨d, _, rfl⟩ := List.mem_map.1 hx
      by_cases hd : 0 < d
      · simp [hd]
        exact le_of_lt hd
      · simp [hd]
    · positivity
  have hl0 : 0 ≤ rsiAvgLoss l := by
    apply div_nonneg
    · apply List.sum_nonneg
      intro x hx
      obtain ⟨d, _, rfl⟩ := List.mem_map.1 hx
      by_cases hd : d < 0
      · simp [hd]
        linarith
      · simp [hd]
    · positivity
  have hrw : calculate_rsi l l =
      (if rsiAvgLoss l = 0 then Except.error PyErr.zeroDivision else
        if 1 + rsiAvgGain l / rsiAvgLoss l = 0 then Except.error PyErr.zeroDivision else
        Except.ok (100 - 100 / (1 + rsiAvgGain l / rsiAvgLoss l))) := by
    simp only [calculate_rsi, hguard, if_false, deltas_eq_zipWith l, List.length_map,
      if_neg hdnez]
    rfl
  constructor
  · intro hne
    have hlpos : 0 < rsiAvgLoss l := lt_of_le_of_ne hl0 (Ne.symm hne)
    have hrs : 0 ≤ rsiAvgGain l / rsiAvgLoss l := div_nonneg hg0 hl0
    have h1rs : (0 : ℚ) < 1 + rsiAvgGain l / rsiAvgLoss l := by linarith
    have hne1 : ¬ (1 + rsiAvgGain l / rsiAvgLoss l = 0) := ne_of_gt h1rs
    have hdle : 100 / (1 + rsiAvgGain l / rsiAvgLoss l) ≤ 100 :=
      div_le_self (by norm_num) (by linarith)
    have hdnn : 0 ≤ 100 / (1 + rsiAvgGain l / rsiAvgLoss l) :=
      div_nonneg (by norm_num) (le_of_lt h1rs)
    rw [hrw, if_neg hne, if_neg hne1]
    exact ⟨rfl, by linarith, by linarith⟩
  · intro hz
    rw [hrw, if_pos hz]

/-- Witness for C5 on the series `[1, 2, 1]`: the average loss is `1/2`,
and the returned RSI is `50`. -/
theorem calculate_rsi_full_series_witness :
    calculate_rsi [(1 : ℚ), 2, 1] [1, 2, 1] = Except.ok 50 := by
  have hne : rsiAvgLoss [(1 : ℚ), 2, 1] ≠ 0 := by
    norm_num [rsiAvgLoss, rsiDeltas]
  have h := ((calculate_rsi_full_series [(1 : ℚ), 2, 1] (by norm_num)).1 hne).1
  rw [h]
  norm_num [rsiAvgGain, rsiAvgLoss, rsiDeltas]

/-- The drawdown at each position of a series, tracking the running peak
left-to-right exactly as the loop does: the peak is updated first, then the
drawdown `(peak - value) / peak` is recorded. -/
def ddList (p : ℚ) : List ℚ → List ℚ
  | [] => []
  | v :: rest =>
    let p2 := if p < v then v else p
    ((p2 - v) / p2) :: ddList p2 rest

/-- The running peak after consuming a series, as the loop updates it. -/
def peakFold (p : ℚ) (vs : List ℚ) : ℚ :=
  vs.foldl (fun q v => if q < v then v else q) p

/-- The running maximum of a list starting from a seed, as the loop's
`if drawdown > max_drawdown` update computes it. -/
def maxOf (l : List ℚ) (d : ℚ) : ℚ :=
  l.foldl (fun m x => if m < x then x else m) d

/-- When the incoming peak and the value are positive, the monadic loop
step does not raise and equals the pure step. -/
theorem ddStepM_ok (acc : ℚ × ℚ) (v : ℚ) (h1 : 0 < acc.1) (hv : 0 < v) :
    ddStepM acc v = Except.ok (ddStep acc v) := by
  have hp : (0 : ℚ) < if acc.1 < v then v else acc.1 := by
    split
    · exact hv
    · exact h1
  unfold ddStepM ddStep
  rw [if_neg (ne_of_gt hp)]

/-- The pure step preserves positivity of the peak. -/
theorem ddStep_fst_pos (acc : ℚ × ℚ) (v : ℚ) (h1 : 0 < acc.1) (hv : 0 < v) :
    0 < (ddStep acc v).1 := by
  unfold ddStep
  simp only
  split
  · exact hv
  · exact h1

/-- Over a list of positive values and from a positive peak, the monadic
fold of the loop raises nothing and equals the pure fold. -/
theorem foldlM_ddStep : ∀ (vs : List ℚ) (acc : ℚ × ℚ), 0 < acc.1 →
    (∀ v ∈ vs, 0 < v) →
    List.foldlM ddStepM acc vs = Except.ok (List.foldl ddStep acc vs)
  | [], acc, _, _ => rfl
  | v :: rest, acc, hp, hv => by
    have hv0 : 0 < v := hv v (by simp)
    rw [List.foldlM_cons, ddStepM_ok acc v hp hv0]
    exact foldlM_ddStep rest (ddStep acc v) (ddStep_fst_pos acc v hp hv0)
      (fun w hw => hv w (List.mem_cons_of_mem v hw))

/-- The pure fold of the loop splits into the running peak and the running
maximum of the position-wise drawdowns. -/
theorem foldl_ddStep_eq : ∀ (vs : List ℚ) (acc : ℚ × ℚ),
    List.foldl ddStep acc vs = (peakFold acc.1 vs, maxOf (ddList acc.1 vs) acc.2)
  | [], acc => rfl
  | v :: rest, acc => by
    rw [List.foldl_cons]
    exact foldl_ddStep_eq rest (ddStep acc v)

/-- The seed is bounded by the running maximum. -/
theorem d_le_maxOf : ∀ (l : List ℚ) (d : ℚ), d ≤ maxOf l d
  | [], _ => le_refl _
  | a :: l, d => by
    have h1 : d ≤ if d < a then a else d := by
      split
      · exact le_of_lt (by assumption)
      · exact le_refl d
    exact le_trans h1 (d_le_maxOf l _)

/-- Every element of a list is bounded by the running maximum. -/
theorem le_maxOf : ∀ (l : List ℚ) (d x : ℚ), x ∈ l → x ≤ maxOf l d
  | [], _, x, hx => absurd hx (List.not_mem_nil x)
  | a :: l, d, x, hx => by
    rcases List.mem_cons.1 hx with rfl | hx'
    · have h1 : x ≤ if d < x then x else d := by
        split
        · exact le_refl x
        · exact le_of_not_lt (by assumption)
      exact le_trans h1 (d_le_maxOf l _)
    · exact le_maxOf l _ x hx'

/-- The running maximum is an element of the list or the seed itself. -/
theorem maxOf_mem : ∀ (l : List ℚ) (d : ℚ), maxOf l d ∈ l ∨ maxOf l d = d
  | [], d => Or.inr rfl
  | a :: l, d => by
    have hstep : maxOf (a :: l) d = maxOf l (if d < a then a else d) := rfl
    rcases maxOf_mem l (if d < a then a else d) with h | h
    · rw [hstep]
      exact Or.inl (List.mem_cons_of_mem a h)
    · rw [hstep, h]
      by_cases hda : d < a
      · rw [if_pos hda]
        exact Or.inl (List.mem_cons_self a l)
      · rw [if_neg hda]
        exact Or.inr rfl

/-- Along a non-decreasing chain the updated peak is always the current
value, so every drawdown is zero. -/
theorem ddList_chain_le : ∀ (vs : List ℚ) (p : ℚ), List.Chain (· ≤ ·) p vs →
    ddList p vs = List.replicate vs.length 0
  | [], p, _ => rfl
  | v :: rest, p, h => by
    obtain ⟨hpv, hrest⟩ := List.chain_cons.1 h
    have hp2 : (if p < v then v else p) = v := by
      by_cases hpv' : p < v
      · rw [if_pos hpv']
      · rw [if_neg hpv']
        exact le_antisymm hpv (le_of_not_lt hpv')
    simp only [ddList, hp2, sub_self, zero_div, List.length_cons, List.replicate_succ]
    exact congrArg (List.cons 0) (ddList_chain_le rest v hrest)

/-- The running maximum of an all-zero list from seed zero is zero. -/
theorem maxOf_replicate_zero : ∀ n : ℕ, maxOf (List.replicate n 0) 0 = 0
  | 0 => rfl
  | n + 1 => by
    have h0 : (if (0 : ℚ) < 0 then (0 : ℚ) else 0) = 0 := by
      rw [if_neg (lt_irrefl 0)]
    show maxOf (List.replicate n 0) (if (0 : ℚ) < 0 then (0 : ℚ) else 0) = 0
    rw [h0]
    exact maxOf_replicate_zero n

/-- The first recorded drawdown of a series that starts at its own peak is
zero. -/
theorem ddList_self_head (v0 : ℚ) (vs : List ℚ) :
    ddList v0 (v0 :: vs) = 0 :: ddList v0 vs := by
  simp only [ddList, if_neg (lt_irrefl v0), sub_self, zero_div]

/-- Claim C4: on a non-empty series of positive values,
`calculate_max_drawdown` returns the maximum over all positions of
`(runningPeak - value) / runningPeak` with the peak started at the first
element and updated left-to-right: the result bounds every position-wise
drawdown, is attained at some position, is nonnegative, and is zero on
every monotonically non-decreasing series. -/
theorem calculate_max_drawdown_spec (v0 : ℚ) (vs : List ℚ)
    (hpos : ∀ v ∈ v0 :: vs, 0 < v) :
    calculate_max_drawdown (v0 :: vs) = Except.ok (maxOf (ddList v0 (v0 :: vs)) 0) ∧
    (∀ x ∈ ddList v0 (v0 :: vs), x ≤ maxOf (ddList v0 (v0 :: vs)) 0) ∧
    maxOf (ddList v0 (v0 :: vs)) 0 ∈ ddList v0 (v0 :: vs) ∧
    0 ≤ maxOf (ddList v0 (v0 :: vs)) 0 ∧
    (List.Chain (· ≤ ·) v0 vs → maxOf (ddList v0 (v0 :: vs)) 0 = 0) := by
  have hv0 : 0 < v0 := hpos v0 (by simp)
  refine ⟨?_, ?_, ?_, ?_, ?_⟩
  · have hcalc : calculate_max_drawdown (v0 :: vs) =
        (List.foldlM ddStepM (v0, 0) (v0 :: vs)).map Prod.snd := rfl
    rw [hcalc, foldlM_ddStep (v0 :: vs) (v0, 0) hv0 hpos, foldl_ddStep_eq]
    rfl
  · intro x hx
    exact le_maxOf _ 0 x hx
  · rcases maxOf_mem (ddList v0 (v0 :: vs)) 0 with h | h
    · exact h
    · rw [h, ddList_self_head]
      exact List.mem_cons_self 0 _
  · exact d_le_maxOf _ 0
  · intro hch
    rw [ddList_self_head, ddList_chain_le vs v0 hch,
      show (0 : ℚ) :: List.replicate vs.length 0 = List.replicate (vs.length + 1) 0 from rfl,
      maxOf_replicate_zero]

/-- Witness for C4: on `[100, 50]` the maximum drawdown is `1/2`. -/
theorem calculate_max_drawdown_spec_witness :
    calculate_max_drawdown [(100 : ℚ), 50] = Except.ok (1/2) := by
  have h := (calculate_max_drawdown_spec 100 [50] (by norm_num)).1
  rw [h]
  norm_num [ddList, maxOf]
